import Mathlib

/-!
Verification of the shared mutable record program (`src/main.rs`).

The program wraps a `SharedData` record (an immutable `id : String` and a
mutable `value : i32`) in `Rc<RefCell<...>>`: `Rc` provides reference-counted
shared ownership, `RefCell` provides runtime-checked interior mutability.
We embed the record and its operations, the `RefCell` borrow-state machine,
the reference-counted cell, the drop/destruction behaviour of `Rc`, and the
full event trace of `main`, and prove the specified properties about them.
-/

namespace RcRefCell

/-- Two's-complement wrap of an unbounded integer into the `i32` range
`[-2^31, 2^31)`, the release-mode semantics of Rust `i32` arithmetic. -/
def wrap32 (n : Int) : Int := (n + 2 ^ 31) % 2 ^ 32 - 2 ^ 31

/-- Rust `i32` addition (wrapping). -/
def i32add (a b : Int) : Int := wrap32 (a + b)

/-- Observable events of the program: strong-count observations, mutation log
lines (old and new value, as printed by `update_value` / `increment_value`),
`display` log lines, and destruction of the record. -/
inductive Event where
  | strongCount (n : Nat)
  | update (id : String) (old new : Int)
  | increment (id : String) (old new : Int)
  | display (id : String) (value : Int)
  | destroyed
deriving Repr, DecidableEq

/-- The record shared by all owners: `struct SharedData { id: String, value: i32 }`. -/
structure SharedData where
  id : String
  value : Int
deriving Repr, DecidableEq

namespace SharedData

/-- `SharedData::new(id, initial_value)`. -/
def new (id : String) (initial_value : Int) : SharedData :=
  { id := id, value := initial_value }

/-- `SharedData::update_value(&mut self, new_value)`: logs the old and new
value, then stores `new_value`. -/
def update_value (r : SharedData) (new_value : Int) : SharedData × Event :=
  ({ r with value := new_value }, .update r.id r.value new_value)

/-- `SharedData::increment_value(&mut self)`: logs old and new value, then
does `self.value += 1` in `i32` arithmetic. -/
def increment_value (r : SharedData) : SharedData × Event :=
  ({ r with value := i32add r.value 1 }, .increment r.id r.value (i32add r.value 1))

/-- `SharedData::display(&self)`: logs `id` and the current value; no mutation. -/
def display (r : SharedData) : Event := .display r.id r.value

end SharedData

/-- The dynamic borrow state of a `RefCell`: idle, `n` outstanding shared
(read) borrows, or one outstanding exclusive (write) borrow. -/
inductive BorrowState where
  | idle
  | reading (n : Nat)
  | writing
deriving Repr, DecidableEq

/-- The only error kind: a dynamic borrow conflict (the condition under which
`RefCell::borrow` / `borrow_mut` panic in Rust). -/
inductive BorrowError where
  | borrowConflict
deriving Repr, DecidableEq

namespace BorrowState

/-- `RefCell::borrow`: acquire a shared (read) lease. Succeeds while no
exclusive lease is outstanding; fails with a borrow conflict otherwise. -/
def borrow : BorrowState → Except BorrowError BorrowState
  | .idle => .ok (.reading 1)
  | .reading n => .ok (.reading (n + 1))
  | .writing => .error .borrowConflict

/-- `RefCell::borrow_mut`: acquire the exclusive (write) lease. Succeeds only
from the idle state; fails with a borrow conflict otherwise. -/
def borrow_mut : BorrowState → Except BorrowError BorrowState
  | .idle => .ok .writing
  | .reading _ => .error .borrowConflict
  | .writing => .error .borrowConflict

/-- Dropping a read guard: one outstanding read lease ends. -/
def releaseRead : BorrowState → BorrowState
  | .reading 1 => .idle
  | .reading (n + 2) => .reading (n + 1)
  | s => s

/-- Dropping the write guard: the exclusive lease ends. -/
def releaseWrite : BorrowState → BorrowState
  | .writing => .idle
  | s => s

end BorrowState

/-- The shared cell `Rc<RefCell<SharedData>>`: the strong reference count,
the `RefCell` borrow state, and the record. Every cloned handle aliases this
one cell; no handle holds a copy of the record. -/
structure RcCell where
  strong : Nat
  borrows : BorrowState
  data : SharedData
deriving Repr, DecidableEq

namespace RcCell

/-- `Rc::new(RefCell::new(d))`: one owner, no outstanding borrows. -/
def new (d : SharedData) : RcCell :=
  { strong := 1, borrows := .idle, data := d }

/-- `Rc::clone`: a new owner reference to the same cell; only the strong
count changes, the record is not copied or touched. -/
def clone (c : RcCell) : RcCell :=
  { c with strong := c.strong + 1 }

/-- `Rc::strong_count`. -/
def strong_count (c : RcCell) : Nat := c.strong

/-- The record as read through any owner's handle. All owners alias the one
cell, so the view does not depend on which owner reads. -/
def readVia (_owner : Nat) (c : RcCell) : SharedData := c.data

/-- One statement `h.borrow().display()`: acquire a read lease, display,
release the lease at the end of the statement. The cell is unchanged. -/
def borrowDisplay (c : RcCell) : Except BorrowError Event :=
  match c.borrows.borrow with
  | .error e => .error e
  | .ok _ => .ok c.data.display

/-- One statement `h.borrow_mut().update_value(v)`: acquire the exclusive
lease, mutate, release the lease at the end of the statement. -/
def borrowMutUpdate (c : RcCell) (v : Int) : Except BorrowError (RcCell × Event) :=
  match c.borrows.borrow_mut with
  | .error e => .error e
  | .ok _ =>
    let (d, ev) := c.data.update_value v
    .ok ({ c with data := d }, ev)

/-- One statement `h.borrow_mut().increment_value()`. -/
def borrowMutIncrement (c : RcCell) : Except BorrowError (RcCell × Event) :=
  match c.borrows.borrow_mut with
  | .error e => .error e
  | .ok _ =>
    let (d, ev) := c.data.increment_value
    .ok ({ c with data := d }, ev)

/-- `setValueVia o c v`: owner `o` mutates the record through its handle.
All handles alias the one cell, so the effect does not depend on `o`. -/
def setValueVia (_owner : Nat) (c : RcCell) (v : Int) : RcCell :=
  { c with data := (c.data.update_value v).1 }

/-- `incrementVia o c`: owner `o` increments the record through its handle. -/
def incrementVia (_owner : Nat) (c : RcCell) : RcCell :=
  { c with data := c.data.increment_value.1 }

/-- `displayVia o c`: owner `o` displays the record through its handle. -/
def displayVia (_owner : Nat) (c : RcCell) : Event := c.data.display

/-- `k` successive `Rc::clone` operations. -/
def cloneN (c : RcCell) : Nat → RcCell
  | 0 => c
  | k + 1 => (cloneN c k).clone

end RcCell

/-- The life of the reference-counted allocation: alive with a strong count
and the record, or deallocated after the count reached zero. -/
inductive RcLife where
  | alive (strong : Nat) (data : SharedData)
  | dead
deriving Repr, DecidableEq

/-- Dropping one owner handle (end of scope): the strong count decreases;
when it reaches zero the `RefCell` and the `SharedData` are dropped. The
boolean reports whether this drop destroyed the record. A dead allocation
has no owners left, so no drop can act on it. -/
def dropOwner : RcLife → RcLife × Bool
  | .alive 1 _ => (.dead, true)
  | .alive (n + 2) d => (.alive (n + 1) d, false)
  | .alive 0 d => (.alive 0 d, false)
  | .dead => (.dead, false)

/-- Run `k` owner drops, returning the final state and how many of the drops
destroyed the record. -/
def runDrops : Nat → RcLife → RcLife × Nat
  | 0, s => (s, 0)
  | k + 1, s =>
    let (s1, b) := dropOwner s
    let (s2, c) := runDrops k s1
    (s2, (if b then 1 else 0) + c)

/-- The embedding of `main`: the sequence of statements of `src/main.rs`,
threading the shared cell and collecting the observable events in order.
Each `borrow()` / `borrow_mut()` guard lives for one statement. -/
def mainRun : Except BorrowError (List Event) := do
  let sharedItem := RcCell.new (SharedData.new "ConfigItem" 10)
  let ev1 := Event.strongCount sharedItem.strong_count
  let ev2 ← sharedItem.borrowDisplay
  let componentA := sharedItem.clone
  let ev3 := Event.strongCount componentA.strong_count
  let ev4 ← componentA.borrowDisplay
  let componentB := componentA.clone
  let ev5 := Event.strongCount componentB.strong_count
  let (cell1, ev6) ← componentB.borrowMutUpdate 25
  let (cell2, ev7) ← cell1.borrowMutIncrement
  let ev8 ← cell2.borrowDisplay
  let ev9 ← cell2.borrowDisplay
  let ev10 ← cell2.borrowDisplay
  let ev11 := Event.strongCount cell2.strong_count
  pure [ev1, ev2, ev3, ev4, ev5, ev6, ev7, ev8, ev9, ev10, ev11]

end RcRefCell

namespace RcRefCell

/-- The id carried by a log event, when the event mentions the record. -/
def Event.recId : Event → Option String
  | .update s _ _ => some s
  | .increment s _ _ => some s
  | .display s _ => some s
  | _ => none

theorem cloneN_strong (c : RcCell) (k : Nat) : (c.cloneN k).strong = c.strong + k := by
  induction k with
  | zero => rfl
  | succ k ih => simp [RcCell.cloneN, RcCell.clone, ih]; omega

theorem cloneN_data (c : RcCell) (k : Nat) : (c.cloneN k).data = c.data := by
  induction k with
  | zero => rfl
  | succ k ih => simp [RcCell.cloneN, RcCell.clone, ih]

theorem runDrops_dead (k : Nat) : runDrops k .dead = (.dead, 0) := by
  induction k with
  | zero => rfl
  | succ k ih => simp [runDrops, dropOwner, ih]

theorem runDrops_alive (n : Nat) (d : SharedData) :
    runDrops (n + 1) (.alive (n + 1) d) = (.dead, 1) := by
  induction n with
  | zero => rfl
  | succ n ih =>
    have hstep : runDrops (n + 1 + 1) (RcLife.alive (n + 1 + 1) d)
        = ((runDrops (n + 1) (RcLife.alive (n + 1) d)).1,
          0 + (runDrops (n + 1) (RcLife.alive (n + 1) d)).2) := rfl
    rw [hstep, ih]
    rfl

/-- C1: the end-to-end trace of `main`: strong count 1 after construction of
the `"ConfigItem"` record with value 10, count 3 after the two clones,
value 26 after component B's `update_value(25)` and `increment_value()`,
component A's, the original reference's and B's own displays all showing
id `"ConfigItem"` and value 26, and strong count 3 immediately before the
handles are dropped. -/
theorem spec_C1_main_trace :
    mainRun = .ok [.strongCount 1, .display "ConfigItem" 10,
      .strongCount 2, .display "ConfigItem" 10,
      .strongCount 3, .update "ConfigItem" 10 25,
      .increment "ConfigItem" 25 26,
      .display "ConfigItem" 26, .display "ConfigItem" 26,
      .display "ConfigItem" 26, .strongCount 3] := rfl

/-- C2: for every non-idle lease state, requesting the exclusive lease fails
with a borrow conflict; requesting a read lease while the exclusive lease is
outstanding fails with a borrow conflict; and two concurrently outstanding
read leases succeed. The failure is an `Except.error` that carries no new
lease state: the offending operation is aborted and the cell is untouched. -/
theorem spec_C2_borrow_conflicts (s : BorrowState) (h : s ≠ .idle) :
    s.borrow_mut = .error .borrowConflict ∧
    BorrowState.borrow .writing = .error .borrowConflict ∧
    BorrowState.borrow .idle = .ok (.reading 1) ∧
    BorrowState.borrow (.reading 1) = .ok (.reading 2) := by
  refine ⟨?_, rfl, rfl, rfl⟩
  cases s with
  | idle => exact absurd rfl h
  | reading n => rfl
  | writing => rfl

theorem spec_C2_witness :
    BorrowState.borrow_mut .writing = .error .borrowConflict ∧
    BorrowState.borrow .writing = .error .borrowConflict ∧
    BorrowState.borrow .idle = .ok (.reading 1) ∧
    BorrowState.borrow (.reading 1) = .ok (.reading 2) :=
  spec_C2_borrow_conflicts .writing (by decide)

/-- C3: `k` clones of a freshly created single-owner handle give strong
count `k + 1`, and the record is never copied or changed by cloning. -/
theorem spec_C3_clone_count (k : Nat) (s : String) (v : Int) :
    ((RcCell.new (SharedData.new s v)).cloneN k).strong_count = k + 1 ∧
    ((RcCell.new (SharedData.new s v)).cloneN k).data = SharedData.new s v := by
  constructor
  · show ((RcCell.new (SharedData.new s v)).cloneN k).strong = k + 1
    rw [cloneN_strong]; simp [RcCell.new]; omega
  · rw [cloneN_data]; rfl

/-- C4: `increment_value` produces exactly the record `update_value` produces
when given the current value plus one (in `i32` arithmetic, as the source
computes it). -/
theorem spec_C4_increment_is_update (r : SharedData) :
    r.increment_value.1 = (r.update_value (i32add r.value 1)).1 := rfl

/-- C5: last write wins: after `update_value v1` then `update_value v2` the
value is `v2`, whatever the prior value and `v1` were. -/
theorem spec_C5_last_write_wins (r : SharedData) (v1 v2 : Int) :
    (((r.update_value v1).1).update_value v2).1.value = v2 := rfl

/-- C6: after any owner mutates the record through its handle, any owner's
`display` observes the mutated value: all handles alias the identical cell,
so the observation is independent of which owner mutated and which reads. -/
theorem spec_C6_shared_visibility (a b : Nat) (c : RcCell) (v : Int) :
    RcCell.displayVia b (RcCell.setValueVia a c v) = .display c.data.id v ∧
    RcCell.displayVia b (RcCell.incrementVia a c)
      = .display c.data.id (i32add c.data.value 1) ∧
    RcCell.readVia b (RcCell.setValueVia a c v) = RcCell.readVia a (RcCell.setValueVia a c v) :=
  ⟨rfl, rfl, rfl⟩

/-- C7: the id is immutable after construction: `update_value` and
`increment_value` change only the value, cloning leaves the record untouched,
`display` mutates nothing, and every record-mentioning event in the trace of
`main` carries the construction id `"ConfigItem"`. -/
theorem spec_C7_id_immutable :
    (∀ (r : SharedData) (v : Int), ((r.update_value v).1).id = r.id) ∧
    (∀ r : SharedData, (r.increment_value.1).id = r.id) ∧
    (∀ (c : RcCell) (o : Nat), (RcCell.readVia o c.clone).id = (RcCell.readVia o c).id) ∧
    (∀ r : SharedData, r.display = .display r.id r.value) ∧
    (((mainRun.toOption.getD []).filterMap Event.recId).all
      (fun s => s == "ConfigItem")) = true :=
  ⟨fun _ _ => rfl, fun _ => rfl, fun _ _ => rfl, fun _ => rfl, by decide⟩

/-- C8: dropping all `n + 1` owners of a live allocation destroys the record
exactly once — never zero times and never twice — and the dead state is
terminal: no drop acts on it and no run of drops leaves it or destroys
anything further. -/
theorem spec_C8_destroy_once (n : Nat) (d : SharedData) :
    runDrops (n + 1) (.alive (n + 1) d) = (.dead, 1) ∧
    dropOwner .dead = (.dead, false) ∧
    (∀ k, runDrops k .dead = (.dead, 0)) :=
  ⟨runDrops_alive n d, rfl, runDrops_dead⟩

/-- C9: the value is a fixed-width `i32`: below `2^31 - 1` increment adds
exactly 1, but at `2^31 - 1` it wraps to `-2^31` instead of producing the
mathematical `2^31`, so increment is not infallible over unbounded integers. -/
theorem spec_C9_i32_overflow :
    (∀ (s : String) (v : Int), -(2 ^ 31) ≤ v → v < 2 ^ 31 - 1 →
      ((SharedData.new s v).increment_value).1.value = v + 1) ∧
    (∀ s : String, ((SharedData.new s (2 ^ 31 - 1)).increment_value).1.value = -(2 ^ 31)) ∧
    (-(2 ^ 31) : Int) ≠ 2 ^ 31 - 1 + 1 := by
  refine ⟨fun s v h1 h2 => ?_, fun s => rfl, by decide⟩
  show i32add v 1 = v + 1
  unfold i32add wrap32
  omega

theorem spec_C9_witness :
    ((SharedData.new "ConfigItem" 10).increment_value).1.value = 10 + 1 :=
  spec_C9_i32_overflow.1 "ConfigItem" 10 (by decide) (by decide)

/-- C10: cloning is frame-preserving on the record: the id and value after a
clone equal those before it, and reads through the original handle and the
new handle observe the same state. -/
theorem spec_C10_clone_frame (c : RcCell) (a b : Nat) :
    c.clone.data = c.data ∧
    RcCell.readVia a c.clone = RcCell.readVia b c.clone ∧
    RcCell.readVia a c.clone = RcCell.readVia a c :=
  ⟨rfl, rfl, rfl⟩

end RcRefCell
